import Mathlib

/-!
Shallow embedding of the Cross-Coach correlation-and-insight engine.

The repository contains three engine variants that write `CorrelationInsight`
rows:
  * the on-demand script `app/scripts/correlation_analysis.py` (namespace
    `Script` below),
  * the scheduled weekly service `app/analytics/correlation_service.py`
    (namespace `Service`),
  * the trailing-7-day worker `app/analytics/worker.py` (namespace `Worker`).

Conventions of the embedding:
  * python floats are modelled as exact rationals (`ℚ`); decimal literals such
    as `0.05` become the exact rationals `1/20`;
  * `scipy.stats.pearsonr` / `np.corrcoef` are external library calls; they are
    modelled by an explicit function parameter `pear` (returning `none` where
    scipy would produce NaN or raise) so that theorems hold for every possible
    library behaviour.  A concrete executable instance `pearModel` — exact on
    the perfectly-correlated and zero-covariance samples used in the concrete
    witnesses — feeds the closed witness theorems;
  * the insight table is a list of `Insight` values; SQLAlchemy's
    delete/insert/commit sequences are modelled as pure functions on that list,
    one function application per committed transaction.
-/

namespace CrossCoach

/-- A raw log observation, modelling a `LogEntry` row from `app/models.py`
(`value` is `nullable=False` in the schema, so it is a plain rational here). -/
structure LogPoint where
  user : ℕ
  date : ℤ
  dom : String
  metric : String
  value : ℚ
deriving DecidableEq

/-- A stored correlation insight, modelling a `CorrelationInsight` row
(`id` and `created_at` are database bookkeeping and are not modelled). -/
structure Insight where
  user : ℕ
  description : String
  score : ℚ
deriving DecidableEq

/-- The `correlation_insights` table. -/
abbrev Store := List Insight

/-- All insights stored for one user (the `WHERE user_id = u` query). -/
def insightsFor (u : ℕ) (s : Store) : Store :=
  s.filter (fun i => i.user == u)

/-- The combined metric key `domain + "_" + metric` built by both pandas
pipelines (`df['domain'] + '_' + df['metric']`). -/
def metricKey (l : LogPoint) : String := l.dom ++ "_" ++ l.metric

/-- Codepoint-lexicographic comparison of character lists, the order Python
and pandas use on strings. -/
def charListLe : List Char → List Char → Bool
  | [], _ => true
  | _ :: _, [] => false
  | a :: as, b :: bs =>
      if a.val < b.val then true
      else if b.val < a.val then false
      else charListLe as bs

/-- Codepoint-lexicographic `≤` on strings (the pandas column sort order). -/
def strLe (a b : String) : Bool := charListLe a.data b.data

/-- Keep the first occurrence of every element, preserving order (the key
order of a Python `dict`). -/
def dedupKeepFirst {α : Type} [DecidableEq α] (seen : List α) : List α → List α
  | [] => []
  | x :: xs =>
      if x ∈ seen then dedupKeepFirst seen xs
      else x :: dedupKeepFirst (x :: seen) xs

/-- All unordered pairs of a list, enumerated as the double loop
`for i, a in enumerate(l): for b in l[i+1:]` does. -/
def pairsOf {α : Type} : List α → List (α × α)
  | [] => []
  | x :: xs => (xs.map (fun y => (x, y))) ++ pairsOf xs

/-- All values logged for one `(date, metric_key)` cell. -/
def cellValues (logs : List LogPoint) (d : ℤ) (k : String) : List ℚ :=
  (logs.filter (fun l => decide (l.date = d) && decide (metricKey l = k))).map
    (·.value)

/-- One cell of the pandas `pivot_table(index='date', columns=metric_key,
values='value', aggfunc='mean')`: the mean of the observations for that date
and key, or `none` (NaN) when the combination was never observed. -/
def pivotCell (logs : List LogPoint) (d : ℤ) (k : String) : Option ℚ :=
  match cellValues logs d k with
  | [] => none
  | vs => some (vs.sum / (vs.length : ℚ))

/-- The sorted distinct dates of the pivot index (pandas sorts the index). -/
def pivotDates (logs : List LogPoint) : List ℤ :=
  List.insertionSort (· ≤ ·) (dedupKeepFirst [] (logs.map (·.date)))

/-- The sorted distinct metric keys, i.e. the pivot's columns
(pandas sorts column labels lexicographically). -/
def pivotCols (logs : List LogPoint) : List String :=
  List.insertionSort (fun a b => strLe a b = true)
    (dedupKeepFirst [] (logs.map metricKey))

/-- `n·Σxy − Σx·Σy`, the covariance numerator of a paired sample (the sample
covariance times `n²`). -/
def covNum (s : List (ℚ × ℚ)) : ℚ :=
  (s.length : ℚ) * (s.map (fun p => p.1 * p.2)).sum
    - (s.map (·.1)).sum * (s.map (·.2)).sum

/-- `n·Σx² − (Σx)²`: zero exactly when the first coordinates are constant
(`np.std(x) == 0`). -/
def varNumX (s : List (ℚ × ℚ)) : ℚ :=
  (s.length : ℚ) * (s.map (fun p => p.1 * p.1)).sum - (s.map (·.1)).sum ^ 2

/-- `n·Σy² − (Σy)²`: zero exactly when the second coordinates are constant
(`np.std(y) == 0`). -/
def varNumY (s : List (ℚ × ℚ)) : ℚ :=
  (s.length : ℚ) * (s.map (fun p => p.2 * p.2)).sum - (s.map (·.2)).sum ^ 2

/-- The largest `m ≤ n` with `m·m ≤ n`, by structural search (so that the
kernel can evaluate it on the small concrete witness inputs). -/
def natSqrt (n : ℕ) : ℕ :=
  (((List.range (n + 1)).filter (fun m => m * m ≤ n)).getLast?).getD 0

/-- Exact square root of a rational, for use on perfect squares (on other
inputs the value is immaterial to every theorem below: no theorem inspects it
except at perfect-square witness inputs). -/
def ratSqrt (q : ℚ) : ℚ :=
  (natSqrt q.num.toNat : ℚ) / (natSqrt q.den : ℚ)

/-- The Pearson coefficient of a paired sample, exact whenever that
coefficient is rational (in particular on the perfectly correlated and the
zero-covariance samples used by the witnesses). -/
def corrOf (s : List (ℚ × ℚ)) : ℚ :=
  covNum s / ratSqrt (varNumX s * varNumY s)

/-- Model of the two-sided p-value `scipy.stats.pearsonr` attaches: exact at
`|r| = 1` (scipy returns `0.0` there), a placeholder elsewhere — no theorem
depends on the placeholder branch. -/
def pOf (s : List (ℚ × ℚ)) : ℚ :=
  if covNum s ^ 2 = varNumX s * varNumY s then 0 else 1 / 2

/-- Executable model of `scipy.stats.pearsonr` on a paired sample: `none`
models the NaN / exception outcome on degenerate (zero-variance) input,
`some (r, p)` the finite float pair otherwise. -/
def pearModel (s : List (ℚ × ℚ)) : Option (ℚ × ℚ) :=
  if varNumX s = 0 ∨ varNumY s = 0 then none
  else some (corrOf s, pOf s)

/-- The type of the external correlation library (`scipy.stats.pearsonr`):
`none` models a NaN or exception outcome, `some (r, p)` a finite result. -/
abbrev Pear := List (ℚ × ℚ) → Option (ℚ × ℚ)

/-- A transient correlation record, one element of the dict list built by
`calculate_correlations` (`metric1/metric2/correlation/p_value/n_samples`). -/
structure CorrRec where
  metric1 : String
  metric2 : String
  corr : ℚ
  p : ℚ
  n : ℕ
deriving DecidableEq

/-- Split a character list at the first underscore, dropping it
(Python `s.split('_', 1)` for strings that contain an underscore; keys built
by `metricKey` always do). -/
def splitAtUnderscore : List Char → List Char × List Char
  | [] => ([], [])
  | c :: cs =>
      if c = '_' then ([], cs)
      else
        let r := splitAtUnderscore cs
        (c :: r.1, r.2)

/-- `s.split('_', 1)` as a pair `(domain, metric_name)`. -/
def pySplitOnce (s : String) : String × String :=
  let r := splitAtUnderscore s.data
  (String.mk r.1, String.mk r.2)

/-- Helper for `pyTitle`: the boolean records whether the previous character
was alphabetic. -/
def pyTitleAux : Bool → List Char → List Char
  | _, [] => []
  | prevAlpha, c :: cs =>
      if c.isAlpha then
        (if prevAlpha then c.toLower else c.toUpper) :: pyTitleAux true cs
      else c :: pyTitleAux false cs

/-- Python `str.title()`: uppercase every alphabetic character that starts an
alphabetic run, lowercase the rest of the run. -/
def pyTitle (s : String) : String := String.mk (pyTitleAux false s.data)

/-- Left-pad a digit string with zeros to width `nd`. -/
def padZeros (nd : ℕ) (s : String) : String :=
  String.mk (List.replicate (nd - s.length) '0') ++ s

/-- Round to the nearest integer, ties to even (CPython's rounding when
formatting). -/
def roundHalfEven (x : ℚ) : ℤ :=
  if (1 : ℚ) / 2 < x - (⌊x⌋ : ℚ) then ⌊x⌋ + 1
  else if x - (⌊x⌋ : ℚ) < (1 : ℚ) / 2 then ⌊x⌋
  else if ⌊x⌋ % 2 = 0 then ⌊x⌋ else ⌊x⌋ + 1

/-- Python fixed-point formatting `format(q, '.Nf')`, with CPython's
round-half-even; exact for inputs representable at that precision (all the
concrete inputs below are). -/
def fmtFixed (nd : ℕ) (q : ℚ) : String :=
  (if q < 0 then "-" else "")
    ++ toString ((roundHalfEven (|q| * (10 : ℚ) ^ nd)).toNat / 10 ^ nd)
    ++ "."
    ++ padZeros nd (toString ((roundHalfEven (|q| * (10 : ℚ) ^ nd)).toNat % 10 ^ nd))

/-- Does the first character list start with the second? -/
def startsWithChars : List Char → List Char → Bool
  | _, [] => true
  | [], _ :: _ => false
  | a :: as, b :: bs => a == b && startsWithChars as bs

/-- Does the first character list contain the second as a contiguous run? -/
def hasSubChars : List Char → List Char → Bool
  | [], sub => sub.isEmpty
  | a :: as, sub => startsWithChars (a :: as) sub || hasSubChars as sub

/-- Does `s` contain `sub` as a substring? -/
def containsSub (s sub : String) : Bool := hasSubChars s.data sub.data

namespace Script

/-! `app/scripts/correlation_analysis.py`, the on-demand single-user engine
(also exposed over HTTP as `POST /analyze-correlations`). -/

/-- The dates both series carry a value on: `series1.dropna()` /
`series2.dropna()` followed by `index.intersection` in
`calculate_correlations`. -/
def sampleDates (logs : List LogPoint) (k1 k2 : String) : List ℤ :=
  (pivotDates logs).filter
    (fun d => (pivotCell logs d k1).isSome && (pivotCell logs d k2).isSome)

/-- The paired values the script correlates for one metric pair:
`series1.loc[common_dates]` zipped with `series2.loc[common_dates]`. -/
def sample (logs : List LogPoint) (k1 k2 : String) : List (ℚ × ℚ) :=
  (sampleDates logs k1 k2).map
    (fun d => ((pivotCell logs d k1).getD 0, (pivotCell logs d k2).getD 0))

/-- The body of `calculate_correlations` for one `(metric1, metric2)` pair:
skip when fewer than 3 common dates, skip when the library yields NaN
(`np.isnan(correlation)`), emit the record otherwise. -/
def calculate_pair (pear : Pear) (logs : List LogPoint) (k1 k2 : String) :
    Option CorrRec :=
  if (sampleDates logs k1 k2).length < 3 then none
  else
    (pear (sample logs k1 k2)).map
      (fun rp => ⟨k1, k2, rp.1, rp.2, (sampleDates logs k1 k2).length⟩)

/-- `calculate_correlations`: every column pair `i < j` of the pivot, in
order. -/
def calculate_correlations (pear : Pear) (logs : List LogPoint) :
    List CorrRec :=
  (pairsOf (pivotCols logs)).filterMap
    (fun kk => calculate_pair pear logs kk.1 kk.2)

/-- Descending-by-`|coefficient|` order, the key of
`sort(key=lambda x: abs(x['correlation']), reverse=True)`. -/
def byAbsDesc (a b : CorrRec) : Prop := |b.corr| ≤ |a.corr|

instance : DecidableRel byAbsDesc :=
  fun a b => inferInstanceAs (Decidable (|b.corr| ≤ |a.corr|))

instance : IsTotal CorrRec byAbsDesc :=
  ⟨fun a b => le_total (|b.corr|) (|a.corr|)⟩

instance : IsTrans CorrRec byAbsDesc :=
  ⟨fun _ _ _ hab hbc => le_trans hbc hab⟩

/-- `select_top_correlations`: keep `p_value < 0.05`, split by coefficient
sign, stable-sort each group descending by `|coefficient|`, take the first
`topN` of each (the source defaults `top_n` to 3). -/
def select_top_correlations (cs : List CorrRec) (topN : ℕ) :
    List CorrRec × List CorrRec :=
  let significant := cs.filter (fun c => decide (c.p < 1 / 20))
  let positive := significant.filter (fun c => decide (0 < c.corr))
  let negative := significant.filter (fun c => decide (c.corr < 0))
  ((List.insertionSort byAbsDesc positive).take topN,
   (List.insertionSort byAbsDesc negative).take topN)

/-- `generate_insight_text`: the narrative sentence for one record. -/
def generate_insight_text (c : CorrRec) : String :=
  let dm1 := pySplitOnce c.metric1
  let dm2 := pySplitOnce c.metric2
  let pct := fmtFixed 1 (|c.corr| * 100)
  let base :=
    if 0 < c.corr then
      if dm1.1 = dm2.1 then
        pyTitle dm1.2 ++ " and " ++ dm2.2 ++
          " show a strong positive correlation (" ++ pct ++ "% relationship)"
      else
        "Higher " ++ dm1.2 ++ " in " ++ dm1.1 ++ " is associated with better "
          ++ dm2.2 ++ " in " ++ dm2.1 ++ " (" ++ pct ++ "% correlation)"
    else
      if dm1.1 = dm2.1 then
        pyTitle dm1.2 ++ " and " ++ dm2.2 ++
          " show a strong negative correlation (" ++ pct ++
          "% inverse relationship)"
      else
        "Higher " ++ dm1.2 ++ " in " ++ dm1.1 ++ " is associated with lower "
          ++ dm2.2 ++ " in " ++ dm2.1 ++ " (" ++ pct ++
          "% inverse correlation)"
  if c.p < 1 / 100 then base ++ " (highly significant)"
  else if c.p < 1 / 20 then base ++ " (significant)"
  else base

/-- `save_insights_to_db`: delete the user's insights, insert one row per
selected record (positives first), commit — one transaction, modelled as one
pure store update. -/
def save_insights_to_db (u : ℕ) (pos neg : List CorrRec) (s : Store) : Store :=
  (s.filter (fun i => i.user != u))
    ++ pos.map (fun c => ⟨u, generate_insight_text c, c.corr⟩)
    ++ neg.map (fun c => ⟨u, generate_insight_text c, c.corr⟩)

/-- `run_correlation_analysis` for one user: fail (`ValueError`) when the
user has no logs, otherwise pivot, correlate, select top 3 per polarity and
replace the stored insights.  `logs` is the result of `fetch_user_logs`,
i.e. every `LogEntry` of that user. -/
def run_correlation_analysis (pear : Pear) (u : ℕ) (logs : List LogPoint)
    (s : Store) : Except String Store :=
  if logs.isEmpty then Except.error "no logs"
  else
    Except.ok (save_insights_to_db u
      (select_top_correlations (calculate_correlations pear logs) 3).1
      (select_top_correlations (calculate_correlations pear logs) 3).2 s)

end Script

namespace Service

/-! `app/analytics/correlation_service.py`, the engine variant the weekly
scheduler (`core/scheduler.py`) drives over all users with a 90-day lookback. -/

/-- One element of the `correlation_info` dict list built by
`CorrelationService.compute_correlations`. -/
structure SRec where
  metric1 : String
  metric2 : String
  corr : ℚ
  p : ℚ
  n : ℕ
  description : String
deriving DecidableEq

/-- `_generate_correlation_description`. -/
def generate_correlation_description (m1 m2 : String) (r : ℚ) : String :=
  let strength :=
    if 7 / 10 < |r| then "strong" else if 1 / 2 < |r| then "moderate"
    else "weak"
  let direction := if 0 < r then "positive" else "negative"
  let m1c := pyTitle (m1.replace "_" " ")
  let m2c := pyTitle (m2.replace "_" " ")
  pyTitle strength ++ " " ++ direction ++ " correlation (" ++ fmtFixed 2 r
    ++ ") between " ++ m1c ++ " and " ++ m2c

/-- One cell of the service's pivot *after*
`.fillna(method='ffill').fillna(0)`: the mean at the last date `≤ d` where
the key was observed, and `0` when no such date exists. -/
def filledCell (logs : List LogPoint) (d : ℤ) (k : String) : ℚ :=
  match ((pivotDates logs).filter
      (fun d2 => decide (d2 ≤ d) && (pivotCell logs d2 k).isSome)).getLast? with
  | some d2 => (pivotCell logs d2 k).getD 0
  | none => 0

/-- The paired values the service correlates for one metric pair: after the
two `fillna` calls nothing is NaN, so `clean_data` is every pivot row. -/
def sample (logs : List LogPoint) (k1 k2 : String) : List (ℚ × ℚ) :=
  (pivotDates logs).map (fun d => (filledCell logs d k1, filledCell logs d k2))

/-- The loop body of `CorrelationService.compute_correlations` for one column
pair: skip under 5 rows, skip when `pearsonr` raises (modelled by `none`),
keep only `p_value < 0.05 and abs(corr_coef) > 0.3`. -/
def compute_pair (pear : Pear) (logs : List LogPoint) (k1 k2 : String) :
    Option SRec :=
  if (pivotDates logs).length < 5 then none
  else
    match pear (sample logs k1 k2) with
    | none => none
    | some rp =>
        if rp.2 < 1 / 20 ∧ 3 / 10 < |rp.1| then
          some ⟨k1, k2, rp.1, rp.2, (pivotDates logs).length,
            generate_correlation_description k1 k2 rp.1⟩
        else none

/-- `CorrelationService.compute_correlations` given the fetched log rows of
one user (empty list when the user has no rows in the window). -/
def compute_correlations (pear : Pear) (logs : List LogPoint) : List SRec :=
  (pairsOf (pivotCols logs)).filterMap
    (fun kk => compute_pair pear logs kk.1 kk.2)

/-- `save_correlation_insights`: delete the user's insights, insert one row
per record, commit — one transaction, modelled as one pure store update. -/
def save_correlation_insights (u : ℕ) (cs : List SRec) (s : Store) : Store :=
  (s.filter (fun i => i.user != u))
    ++ cs.map (fun c => ⟨u, c.description, c.corr⟩)

/-- One iteration of the `run_weekly_analysis` loop body (compute then save);
`fetch` models the database read, which may fail. -/
def run_user (pear : Pear) (fetch : ℕ → Except Unit (List LogPoint)) (u : ℕ)
    (s : Store) : Except Unit Store :=
  match fetch u with
  | Except.error e => Except.error e
  | Except.ok logs =>
      Except.ok (save_correlation_insights u (compute_correlations pear logs) s)

/-- `run_weekly_analysis`: iterate the users; the `try/except` around each
body catches any exception and continues with the next user, leaving that
user's stored insights as they were. -/
def run_weekly_analysis (pear : Pear) (fetch : ℕ → Except Unit (List LogPoint))
    (users : List ℕ) (s : Store) : Store :=
  users.foldl
    (fun st u =>
      match run_user pear fetch u st with
      | Except.ok st2 => st2
      | Except.error _ => st) s

end Service

namespace Worker

/-! `app/analytics/worker.py`: the standalone all-users batch over a trailing
7-day window, one value per `(domain, date)` (later rows overwrite earlier
ones in the `domain_to_values` dict). -/

/-- The rows the worker's query returns: the user's logs restricted to
`start = today - 6 ≤ date ≤ today`. -/
def windowLogs (today : ℤ) (logs : List LogPoint) : List LogPoint :=
  logs.filter (fun l => decide (today - 6 ≤ l.date) && decide (l.date ≤ today))

/-- The keys of `domain_to_values`, in first-appearance order. -/
def domains (today : ℤ) (logs : List LogPoint) : List String :=
  dedupKeepFirst [] ((windowLogs today logs).map (·.dom))

/-- `domain_to_values[dm].get(d)`: dict assignment overwrites, so the last
matching row wins. -/
def valAt (today : ℤ) (logs : List LogPoint) (dm : String) (d : ℤ) :
    Option ℚ :=
  (((windowLogs today logs).filter
      (fun l => decide (l.dom = dm) && decide (l.date = d))).map
    (·.value)).getLast?

/-- The paired sample for one domain pair: the window days (ascending) on
which both domains carry a value. -/
def pairsFor (today : ℤ) (logs : List LogPoint) (dm1 dm2 : String) :
    List (ℚ × ℚ) :=
  ((List.range 7).map (fun k => today - 6 + (k : ℤ))).filterMap
    (fun d =>
      match valAt today logs dm1 d, valAt today logs dm2 d with
      | some v1, some v2 => some (v1, v2)
      | _, _ => none)

/-- `worker.compute_correlations`: `None` under 3 points or when either
standard deviation is zero, otherwise the `np.corrcoef` coefficient. -/
def compute_correlations (pairs : List (ℚ × ℚ)) : Option ℚ :=
  if pairs.length < 3 then none
  else if varNumX pairs = 0 ∨ varNumY pairs = 0 then none
  else some (corrOf pairs)

/-- The stored description
`f"Correlation between {d1} and {d2}: {score:.3f}"`. -/
def description (dm1 dm2 : String) (r : ℚ) : String :=
  "Correlation between " ++ dm1 ++ " and " ++ dm2 ++ ": " ++ fmtFixed 3 r

/-- The insights `run_once` adds for one user: one per computed domain pair,
in pair-enumeration order, with no filtering and no deletion of old rows. -/
def userInsights (today : ℤ) (u : ℕ) (logs : List LogPoint) : List Insight :=
  (pairsOf (domains today logs)).filterMap
    (fun dd =>
      (compute_correlations (pairsFor today logs dd.1 dd.2)).map
        (fun r => ⟨u, description dd.1 dd.2 r, r⟩))

/-- Outcome of a `run_once` batch: the committed store, and whether the run
aborted (an uncaught exception escaped the user loop). -/
structure RunResult where
  store : Store
  aborted : Bool
deriving DecidableEq

/-- `worker.run_once`: iterate the users, committing after each; there is no
per-user exception handler, so a failing database read aborts the loop and
leaves the remaining users unprocessed. -/
def run_once (fetch : ℕ → Except Unit (List LogPoint)) (today : ℤ) :
    List ℕ → Store → RunResult
  | [], s => ⟨s, false⟩
  | u :: rest, s =>
      match fetch u with
      | Except.error _ => ⟨s, true⟩
      | Except.ok logs => run_once fetch today rest (s ++ userInsights today u logs)

end Worker

/-! ## Concrete data used by witnesses and counterexamples -/

/-- Two domains, three shared days, zero covariance (`r = 0`). -/
def logsZero : List LogPoint :=
  [⟨1, 4, "sleep", "h", 2⟩, ⟨1, 5, "sleep", "h", 3⟩, ⟨1, 6, "sleep", "h", 4⟩,
   ⟨1, 4, "fitness", "r", 3⟩, ⟨1, 5, "fitness", "r", 4⟩, ⟨1, 6, "fitness", "r", 3⟩]

/-- Two domains, three shared days, perfectly correlated (`r = 1`). -/
def logsId : List LogPoint :=
  [⟨1, 4, "sleep", "h", 2⟩, ⟨1, 5, "sleep", "h", 3⟩, ⟨1, 6, "sleep", "h", 4⟩,
   ⟨1, 4, "fitness", "r", 2⟩, ⟨1, 5, "fitness", "r", 3⟩, ⟨1, 6, "fitness", "r", 4⟩]

/-- Four domains carrying identical series over three shared days. -/
def logsFour : List LogPoint :=
  [⟨1, 4, "a", "m", 2⟩, ⟨1, 5, "a", "m", 3⟩, ⟨1, 6, "a", "m", 4⟩,
   ⟨1, 4, "b", "m", 2⟩, ⟨1, 5, "b", "m", 3⟩, ⟨1, 6, "b", "m", 4⟩,
   ⟨1, 4, "c", "m", 2⟩, ⟨1, 5, "c", "m", 3⟩, ⟨1, 6, "c", "m", 4⟩,
   ⟨1, 4, "d", "m", 2⟩, ⟨1, 5, "d", "m", 3⟩, ⟨1, 6, "d", "m", 4⟩]

/-- Two metrics observed on five shared days, perfectly correlated. -/
def logsV5 : List LogPoint :=
  [⟨1, 1, "sleep", "h", 2⟩, ⟨1, 2, "sleep", "h", 2⟩, ⟨1, 3, "sleep", "h", 3⟩,
   ⟨1, 4, "sleep", "h", 3⟩, ⟨1, 5, "sleep", "h", 4⟩,
   ⟨1, 1, "fitness", "r", 2⟩, ⟨1, 2, "fitness", "r", 2⟩,
   ⟨1, 3, "fitness", "r", 3⟩, ⟨1, 4, "fitness", "r", 3⟩,
   ⟨1, 5, "fitness", "r", 4⟩]

/-- The first four days of `logsV5` (four pivot rows only). -/
def logsV4 : List LogPoint :=
  [⟨1, 1, "sleep", "h", 2⟩, ⟨1, 2, "sleep", "h", 2⟩, ⟨1, 3, "sleep", "h", 3⟩,
   ⟨1, 4, "sleep", "h", 3⟩,
   ⟨1, 1, "fitness", "r", 2⟩, ⟨1, 2, "fitness", "r", 2⟩,
   ⟨1, 3, "fitness", "r", 3⟩, ⟨1, 4, "fitness", "r", 3⟩]

/-- Two metrics overlapping on exactly two days. -/
def logsS2 : List LogPoint :=
  [⟨1, 4, "sleep", "h", 2⟩, ⟨1, 5, "sleep", "h", 3⟩, ⟨1, 6, "sleep", "h", 4⟩,
   ⟨1, 5, "fitness", "r", 2⟩, ⟨1, 6, "fitness", "r", 3⟩]

/-- One constant metric next to a varying one over three shared days. -/
def logsConst : List LogPoint :=
  [⟨1, 4, "sleep", "h", 3⟩, ⟨1, 5, "sleep", "h", 3⟩, ⟨1, 6, "sleep", "h", 3⟩,
   ⟨1, 4, "fitness", "r", 2⟩, ⟨1, 5, "fitness", "r", 3⟩, ⟨1, 6, "fitness", "r", 4⟩]

/-- One metric observed on all five days, the other only on day 1: the
service's forward-fill fabricates values for days 2 to 5. -/
def logsFF : List LogPoint :=
  [⟨1, 1, "fitness", "r", 2⟩, ⟨1, 2, "fitness", "r", 3⟩,
   ⟨1, 3, "fitness", "r", 4⟩, ⟨1, 4, "fitness", "r", 5⟩,
   ⟨1, 5, "fitness", "r", 6⟩, ⟨1, 1, "sleep", "h", 7⟩]

/-- A positive record with `|coefficient| = 3/5` and the larger p-value. -/
def recTieA : CorrRec := ⟨"a_m", "a_n", 3 / 5, 1 / 25, 5⟩

/-- A positive record with the same `|coefficient|` and the smaller
p-value. -/
def recTieB : CorrRec := ⟨"a_m", "a_p", 3 / 5, 1 / 100, 5⟩

/-- A surviving negative record. -/
def recNeg : CorrRec := ⟨"a_m", "a_q", -(3 / 5), 1 / 100, 5⟩

/-- A negative cross-domain record with an exactly representable
coefficient. -/
def recC9 : CorrRec := ⟨"sleep_hours", "climbing_grade", -(1 / 2), 1 / 250, 7⟩

/-- The positive twin of `recC9`. -/
def recC9pos : CorrRec := ⟨"sleep_hours", "climbing_grade", 1 / 2, 1 / 250, 7⟩

/-- The record the service computes from `logsV5`. -/
def recV5 : Service.SRec :=
  ⟨"fitness_r", "sleep_h", 1, 0, 5,
    Service.generate_correlation_description "fitness_r" "sleep_h" 1⟩

/-- A database read that fails for user 1 and succeeds for everyone else. -/
def fetchBad : ℕ → Except Unit (List LogPoint) :=
  fun u => if u = 1 then Except.error () else Except.ok logsV5

/-- The spec's batch scenario: user 3 has zero log points, everyone else has
good data. -/
def fetchScenario : ℕ → Except Unit (List LogPoint) :=
  fun u => if u = 3 then Except.ok [] else Except.ok logsV5

/-! ## Shared lemmas about the insight store -/

theorem insightsFor_append (u : ℕ) (s t : Store) :
    insightsFor u (s ++ t) = insightsFor u s ++ insightsFor u t := by
  simp [insightsFor]

theorem insightsFor_del_self (u : ℕ) (s : Store) :
    insightsFor u (s.filter (fun i => i.user != u)) = [] := by
  simp only [insightsFor, List.filter_filter]
  rw [List.filter_eq_nil_iff]
  intro i _
  by_cases h : i.user = u <;> simp [h]

theorem insightsFor_del_other {u v : ℕ} (hvu : v ≠ u) (s : Store) :
    insightsFor v (s.filter (fun i => i.user != u)) = insightsFor v s := by
  simp only [insightsFor, List.filter_filter]
  congr 1
  funext i
  by_cases h : i.user = v
  · simpa [h, bne] using hvu
  · simp [h]

theorem insightsFor_map_self {α : Type} (u : ℕ) (f : α → Insight)
    (hf : ∀ a, (f a).user = u) (l : List α) :
    insightsFor u (l.map f) = l.map f := by
  simp only [insightsFor]
  rw [List.filter_eq_self]
  intro i hi
  rcases List.mem_map.1 hi with ⟨b, _, hb⟩
  simp [← hb, hf]

theorem insightsFor_map_other {α : Type} {u v : ℕ} (hvu : v ≠ u)
    (f : α → Insight) (hf : ∀ a, (f a).user = u) (l : List α) :
    insightsFor v (l.map f) = [] := by
  simp only [insightsFor]
  rw [List.filter_eq_nil_iff]
  intro a ha
  rcases List.mem_map.1 ha with ⟨b, _, hb⟩
  simp [← hb, hf, Ne.symm hvu]

/-- The service sync replaces exactly the target user's rows. -/
theorem save_service_self (u : ℕ) (cs : List Service.SRec) (s : Store) :
    insightsFor u (Service.save_correlation_insights u cs s) =
      cs.map (fun c => ⟨u, c.description, c.corr⟩) := by
  rw [Service.save_correlation_insights, insightsFor_append,
    insightsFor_del_self, insightsFor_map_self u _ (fun a => rfl)]
  simp

/-- The service sync leaves every other user's rows untouched. -/
theorem save_service_other {u v : ℕ} (hvu : v ≠ u) (cs : List Service.SRec)
    (s : Store) :
    insightsFor v (Service.save_correlation_insights u cs s) =
      insightsFor v s := by
  rw [Service.save_correlation_insights, insightsFor_append,
    insightsFor_del_other hvu, insightsFor_map_other hvu _ (fun a => rfl)]
  simp

/-- The script sync replaces exactly the target user's rows. -/
theorem save_script_self (u : ℕ) (pos neg : List CorrRec) (s : Store) :
    insightsFor u (Script.save_insights_to_db u pos neg s) =
      pos.map (fun c => ⟨u, Script.generate_insight_text c, c.corr⟩)
        ++ neg.map (fun c => ⟨u, Script.generate_insight_text c, c.corr⟩) := by
  rw [Script.save_insights_to_db, insightsFor_append, insightsFor_append,
    insightsFor_del_self, insightsFor_map_self u _ (fun a => rfl),
    insightsFor_map_self u _ (fun a => rfl)]
  simp

/-- The script sync leaves every other user's rows untouched. -/
theorem save_script_other {u v : ℕ} (hvu : v ≠ u) (pos neg : List CorrRec)
    (s : Store) :
    insightsFor v (Script.save_insights_to_db u pos neg s) =
      insightsFor v s := by
  rw [Script.save_insights_to_db, insightsFor_append, insightsFor_append,
    insightsFor_del_other hvu, insightsFor_map_other hvu _ (fun a => rfl),
    insightsFor_map_other hvu _ (fun a => rfl)]
  simp

/-! ## C2 -/

/-- C2: for every user id and every list of newly computed records (including
the empty list), the insight-store sync (`save_correlation_insights` in the
service, `save_insights_to_db` in the script) deletes the user's entire prior
insight set and inserts the new records in one store update (one
transaction), so that afterwards the user's insights are exactly the new
records — no duplicates, no stale rows — and every other user's rows are
untouched. -/
theorem C2_sync_replaces_exactly (u v : ℕ) (cs : List Service.SRec)
    (pos neg : List CorrRec) (s : Store) (hvu : v ≠ u) :
    insightsFor u (Service.save_correlation_insights u cs s)
        = cs.map (fun c => ⟨u, c.description, c.corr⟩)
      ∧ insightsFor v (Service.save_correlation_insights u cs s)
        = insightsFor v s
      ∧ insightsFor u (Script.save_insights_to_db u pos neg s)
        = pos.map (fun c => ⟨u, Script.generate_insight_text c, c.corr⟩)
          ++ neg.map (fun c => ⟨u, Script.generate_insight_text c, c.corr⟩)
      ∧ insightsFor v (Script.save_insights_to_db u pos neg s)
        = insightsFor v s :=
  ⟨save_service_self u cs s, save_service_other hvu cs s,
   save_script_self u pos neg s, save_script_other hvu pos neg s⟩

/-- Witness for C2 at a concrete store holding a stale row for user 1 and a
row for user 2. -/
theorem C2_sync_replaces_exactly_witness :
    (2 : ℕ) ≠ 1
      ∧ insightsFor 1 (Service.save_correlation_insights 1
            [⟨"fitness_r", "sleep_h", 1 / 2, 1 / 100, 5, "d"⟩]
            [⟨1, "old", 1 / 2⟩, ⟨2, "keep", 1 / 3⟩])
        = [⟨1, "d", 1 / 2⟩]
      ∧ insightsFor 2 (Service.save_correlation_insights 1
            [⟨"fitness_r", "sleep_h", 1 / 2, 1 / 100, 5, "d"⟩]
            [⟨1, "old", 1 / 2⟩, ⟨2, "keep", 1 / 3⟩])
        = [⟨2, "keep", 1 / 3⟩] := by
  have h := C2_sync_replaces_exactly 1 2
    [⟨"fitness_r", "sleep_h", 1 / 2, 1 / 100, 5, "d"⟩] [] []
    [⟨1, "old", 1 / 2⟩, ⟨2, "keep", 1 / 3⟩] (by decide)
  refine ⟨by decide, ?_, ?_⟩
  · rw [h.1]
    rfl
  · rw [h.2.1]
    simp [insightsFor]

/-! ## C10 -/

/-- C10: calling the service sync with an empty correlation list still
deletes every prior insight of the user and commits, leaving zero stored
insights; since a user whose fetch returns no rows yields an empty record
list, `run_weekly_analysis` wipes the stored insights of any user with no
log entries in the window. -/
theorem C10_empty_list_wipes (pear : Pear)
    (fetch : ℕ → Except Unit (List LogPoint)) (u : ℕ) (s : Store)
    (hu : fetch u = Except.ok []) :
    insightsFor u (Service.save_correlation_insights u [] s) = []
      ∧ Service.compute_correlations pear [] = []
      ∧ Service.run_user pear fetch u s
          = Except.ok (Service.save_correlation_insights u [] s)
      ∧ Service.run_weekly_analysis pear fetch [u] s
          = Service.save_correlation_insights u [] s := by
  refine ⟨?_, rfl, ?_, ?_⟩
  · rw [save_service_self]
    rfl
  · simp only [Service.run_user, hu]
    rfl
  · simp only [Service.run_weekly_analysis, List.foldl, Service.run_user, hu]
    rfl

/-- Witness for C10: user 1 has a stale insight and no log rows; after the
weekly run user 1 has zero insights. -/
theorem C10_empty_list_wipes_witness :
    ((fun _ => Except.ok []) : ℕ → Except Unit (List LogPoint)) 1
        = Except.ok []
      ∧ insightsFor 1 (Service.run_weekly_analysis pearModel
          (fun _ => Except.ok []) [1] [⟨1, "stale", 1 / 2⟩]) = [] := by
  have h := C10_empty_list_wipes pearModel (fun _ => Except.ok []) 1
    [⟨1, "stale", 1 / 2⟩] rfl
  refine ⟨rfl, ?_⟩
  rw [h.2.2.2, h.1]

/-! ## Evaluation lemmas for the concrete worker data -/

theorem worker_domains_logsZero :
    Worker.domains 6 logsZero = ["sleep", "fitness"] := by
  simp [Worker.domains, Worker.windowLogs, logsZero, dedupKeepFirst]

theorem worker_pairs_logsZero :
    Worker.pairsFor 6 logsZero "sleep" "fitness" = [(2, 3), (3, 4), (4, 3)] := by
  simp [Worker.pairsFor, Worker.valAt, Worker.windowLogs, logsZero,
    List.range_succ]

theorem worker_compute_logsZero :
    Worker.compute_correlations [((2 : ℚ), (3 : ℚ)), (3, 4), (4, 3)]
      = some 0 := by
  have hx : varNumX [((2 : ℚ), (3 : ℚ)), (3, 4), (4, 3)] = 6 := by
    norm_num [varNumX]
  have hy : varNumY [((2 : ℚ), (3 : ℚ)), (3, 4), (4, 3)] = 2 := by
    norm_num [varNumY]
  have hcv : covNum [((2 : ℚ), (3 : ℚ)), (3, 4), (4, 3)] = 0 := by
    norm_num [covNum]
  rw [Worker.compute_correlations,
    if_neg (by norm_num), if_neg (by rw [hx, hy]; norm_num), corrOf, hcv]
  norm_num

theorem worker_insights_logsZero :
    Worker.userInsights 6 1 logsZero
      = [⟨1, Worker.description "sleep" "fitness" 0, 0⟩] := by
  rw [Worker.userInsights, worker_domains_logsZero]
  simp [pairsOf, List.filterMap_cons, worker_pairs_logsZero,
    worker_compute_logsZero]

theorem worker_domains_logsId :
    Worker.domains 6 logsId = ["sleep", "fitness"] := by
  simp [Worker.domains, Worker.windowLogs, logsId, dedupKeepFirst]

theorem worker_pairs_logsId :
    Worker.pairsFor 6 logsId "sleep" "fitness" = [(2, 2), (3, 3), (4, 4)] := by
  simp [Worker.pairsFor, Worker.valAt, Worker.windowLogs, logsId,
    List.range_succ]

theorem worker_compute_perfect3 :
    Worker.compute_correlations [((2 : ℚ), (2 : ℚ)), (3, 3), (4, 4)]
      = some 1 := by
  have hx : varNumX [((2 : ℚ), (2 : ℚ)), (3, 3), (4, 4)] = 6 := by
    norm_num [varNumX]
  have hy : varNumY [((2 : ℚ), (2 : ℚ)), (3, 3), (4, 4)] = 6 := by
    norm_num [varNumY]
  have hcv : covNum [((2 : ℚ), (2 : ℚ)), (3, 3), (4, 4)] = 6 := by
    norm_num [covNum]
  have hns : natSqrt (Int.toNat 36) = 6 := by decide
  have hn1 : natSqrt 1 = 1 := by decide
  rw [Worker.compute_correlations,
    if_neg (by norm_num), if_neg (by rw [hx, hy]; norm_num), corrOf, hcv, hx, hy]
  norm_num [ratSqrt]
  rw [hns, hn1]
  norm_num

theorem worker_insights_logsId :
    Worker.userInsights 6 1 logsId
      = [⟨1, Worker.description "sleep" "fitness" 1, 1⟩] := by
  rw [Worker.userInsights, worker_domains_logsId]
  simp [pairsOf, List.filterMap_cons, worker_pairs_logsId,
    worker_compute_perfect3]

/-! ## Evaluation lemmas for the concrete script and service data -/

theorem pivotDates_logsV5 : pivotDates logsV5 = [1, 2, 3, 4, 5] := by
  decide

theorem pivotCols_logsV5 : pivotCols logsV5 = ["fitness_r", "sleep_h"] := by
  decide

theorem service_sample_logsV5 :
    Service.sample logsV5 "fitness_r" "sleep_h"
      = [(2, 2), (2, 2), (3, 3), (3, 3), (4, 4)] := by
  have cf1 : pivotCell logsV5 1 "fitness_r" = some 2 := by
    have e : cellValues logsV5 1 "fitness_r" = [2] := by decide
    rw [pivotCell, e]
    norm_num
  have cf2 : pivotCell logsV5 2 "fitness_r" = some 2 := by
    have e : cellValues logsV5 2 "fitness_r" = [2] := by decide
    rw [pivotCell, e]
    norm_num
  have cf3 : pivotCell logsV5 3 "fitness_r" = some 3 := by
    have e : cellValues logsV5 3 "fitness_r" = [3] := by decide
    rw [pivotCell, e]
    norm_num
  have cf4 : pivotCell logsV5 4 "fitness_r" = some 3 := by
    have e : cellValues logsV5 4 "fitness_r" = [3] := by decide
    rw [pivotCell, e]
    norm_num
  have cf5 : pivotCell logsV5 5 "fitness_r" = some 4 := by
    have e : cellValues logsV5 5 "fitness_r" = [4] := by decide
    rw [pivotCell, e]
    norm_num
  have cs1 : pivotCell logsV5 1 "sleep_h" = some 2 := by
    have e : cellValues logsV5 1 "sleep_h" = [2] := by decide
    rw [pivotCell, e]
    norm_num
  have cs2 : pivotCell logsV5 2 "sleep_h" = some 2 := by
    have e : cellValues logsV5 2 "sleep_h" = [2] := by decide
    rw [pivotCell, e]
    norm_num
  have cs3 : pivotCell logsV5 3 "sleep_h" = some 3 := by
    have e : cellValues logsV5 3 "sleep_h" = [3] := by decide
    rw [pivotCell, e]
    norm_num
  have cs4 : pivotCell logsV5 4 "sleep_h" = some 3 := by
    have e : cellValues logsV5 4 "sleep_h" = [3] := by decide
    rw [pivotCell, e]
    norm_num
  have cs5 : pivotCell logsV5 5 "sleep_h" = some 4 := by
    have e : cellValues logsV5 5 "sleep_h" = [4] := by decide
    rw [pivotCell, e]
    norm_num
  have ff1 : Service.filledCell logsV5 1 "fitness_r" = 2 := by
    rw [Service.filledCell, pivotDates_logsV5]
    simp [cf1, cf2, cf3, cf4, cf5]
  have ff2 : Service.filledCell logsV5 2 "fitness_r" = 2 := by
    rw [Service.filledCell, pivotDates_logsV5]
    simp [cf1, cf2, cf3, cf4, cf5]
  have ff3 : Service.filledCell logsV5 3 "fitness_r" = 3 := by
    rw [Service.filledCell, pivotDates_logsV5]
    simp [cf1, cf2, cf3, cf4, cf5]
  have ff4 : Service.filledCell logsV5 4 "fitness_r" = 3 := by
    rw [Service.filledCell, pivotDates_logsV5]
    simp [cf1, cf2, cf3, cf4, cf5]
  have ff5 : Service.filledCell logsV5 5 "fitness_r" = 4 := by
    rw [Service.filledCell, pivotDates_logsV5]
    simp [cf1, cf2, cf3, cf4, cf5]
  have fs1 : Service.filledCell logsV5 1 "sleep_h" = 2 := by
    rw [Service.filledCell, pivotDates_logsV5]
    simp [cs1, cs2, cs3, cs4, cs5]
  have fs2 : Service.filledCell logsV5 2 "sleep_h" = 2 := by
    rw [Service.filledCell, pivotDates_logsV5]
    simp [cs1, cs2, cs3, cs4, cs5]
  have fs3 : Service.filledCell logsV5 3 "sleep_h" = 3 := by
    rw [Service.filledCell, pivotDates_logsV5]
    simp [cs1, cs2, cs3, cs4, cs5]
  have fs4 : Service.filledCell logsV5 4 "sleep_h" = 3 := by
    rw [Service.filledCell, pivotDates_logsV5]
    simp [cs1, cs2, cs3, cs4, cs5]
  have fs5 : Service.filledCell logsV5 5 "sleep_h" = 4 := by
    rw [Service.filledCell, pivotDates_logsV5]
    simp [cs1, cs2, cs3, cs4, cs5]
  rw [Service.sample, pivotDates_logsV5]
  simp [ff1, ff2, ff3, ff4, ff5, fs1, fs2, fs3, fs4, fs5]

theorem service_pair_logsV5 :
    Service.compute_pair pearModel logsV5 "fitness_r" "sleep_h"
      = some recV5 := by
  have hx : varNumX [((2 : ℚ), (2 : ℚ)), (2, 2), (3, 3), (3, 3), (4, 4)] = 14 := by
    norm_num [varNumX]
  have hy : varNumY [((2 : ℚ), (2 : ℚ)), (2, 2), (3, 3), (3, 3), (4, 4)] = 14 := by
    norm_num [varNumY]
  have hcv : covNum [((2 : ℚ), (2 : ℚ)), (2, 2), (3, 3), (3, 3), (4, 4)] = 14 := by
    norm_num [covNum]
  have hns : natSqrt (Int.toNat 196) = 14 := by decide
  have hn1 : natSqrt 1 = 1 := by decide
  have hpear : pearModel [((2 : ℚ), (2 : ℚ)), (2, 2), (3, 3), (3, 3), (4, 4)]
      = some (1, 0) := by
    rw [pearModel, if_neg (by rw [hx, hy]; norm_num)]
    have hr : corrOf [((2 : ℚ), (2 : ℚ)), (2, 2), (3, 3), (3, 3), (4, 4)] = 1 := by
      rw [corrOf, hcv, hx, hy]
      norm_num [ratSqrt]
      rw [hns, hn1]
      norm_num
    have hp : pOf [((2 : ℚ), (2 : ℚ)), (2, 2), (3, 3), (3, 3), (4, 4)] = 0 := by
      rw [pOf, if_pos (by rw [hcv, hx, hy]; norm_num)]
    rw [hr, hp]
  rw [Service.compute_pair, if_neg (by rw [pivotDates_logsV5]; norm_num),
    service_sample_logsV5, hpear]
  norm_num [recV5, pivotDates_logsV5]

theorem service_records_logsV5 :
    Service.compute_correlations pearModel logsV5 = [recV5] := by
  rw [Service.compute_correlations, pivotCols_logsV5]
  simp [pairsOf, List.filterMap_cons, service_pair_logsV5]

/-! ## C1 -/

/-- C1 counterexample: the worker variant persists a correlation record with
coefficient `0` (so `|coefficient| > 0.3` fails, and no p-value is computed
at all) as an insight: the claim fails for this insight-writing variant. -/
theorem C1_counterexample :
    (Worker.run_once (fun _ => Except.ok logsZero) 6 [1] []).store.map (·.score)
        = [0]
      ∧ ¬ (3 / 10 < |(0 : ℚ)|) := by
  constructor
  · simp only [Worker.run_once, List.nil_append, worker_insights_logsZero]
    rfl
  · norm_num

/-- C1 amended: only the service variant enforces the joint filter
`p_value < 0.05 ∧ |coefficient| > 0.3` on everything it persists; the script
variant enforces only `p_value < 0.05` on its selected records (the worker
enforces nothing, as the counterexample shows). -/
theorem C1_amended (pear : Pear) (logs : List LogPoint)
    (cs : List CorrRec) (topN : ℕ) (rec : Service.SRec) (c : CorrRec)
    (hrec : rec ∈ Service.compute_correlations pear logs)
    (hc : c ∈ (Script.select_top_correlations cs topN).1
        ∨ c ∈ (Script.select_top_correlations cs topN).2) :
    (rec.p < 1 / 20 ∧ 3 / 10 < |rec.corr|) ∧ c.p < 1 / 20 := by
  constructor
  · rcases List.mem_filterMap.1 hrec with ⟨kk, _, hpair⟩
    rw [Service.compute_pair] at hpair
    split at hpair
    · exact absurd hpair (by simp)
    · split at hpair
      · exact absurd hpair (by simp)
      · split at hpair
        · rename_i rp hcond
          have hrec2 := Option.some_injective _ hpair
          rw [← hrec2]
          exact hcond
        · exact absurd hpair (by simp)
  · have hmem : c ∈ cs.filter (fun c => decide (c.p < 1 / 20)) := by
      rcases hc with h | h
      · have h2 := List.mem_of_mem_take h
        rw [List.mem_insertionSort] at h2
        exact List.mem_of_mem_filter h2
      · have h2 := List.mem_of_mem_take h
        rw [List.mem_insertionSort] at h2
        exact List.mem_of_mem_filter h2
    have := List.of_mem_filter hmem
    simpa using this

/-- Witness for C1 amended: the service run on `logsV5` emits exactly one
record and it satisfies both bounds; the script selector keeps `recTieA`
(whose p-value passes) and the theorem yields its p-bound. -/
theorem C1_amended_witness :
    (recV5 ∈ Service.compute_correlations pearModel logsV5
        ∧ recTieA ∈ (Script.select_top_correlations [recTieA] 3).1)
      ∧ (recV5.p < 1 / 20 ∧ 3 / 10 < |recV5.corr|) ∧ recTieA.p < 1 / 20 := by
  have hm : recV5 ∈ Service.compute_correlations pearModel logsV5 := by
    rw [service_records_logsV5]
    exact List.mem_singleton.2 rfl
  have hsel : (Script.select_top_correlations [recTieA] 3).1 = [recTieA] := by
    norm_num [Script.select_top_correlations, List.insertionSort,
      List.orderedInsert, recTieA]
  have hs : recTieA ∈ (Script.select_top_correlations [recTieA] 3).1 := by
    rw [hsel]
    exact List.mem_singleton.2 rfl
  exact ⟨⟨hm, hs⟩,
    C1_amended pearModel logsV5 [recTieA] 3 recV5 recTieA hm (Or.inl hs)⟩

/-! ## Evaluation lemmas for the script pipeline on concrete data -/

theorem script_sampleDates_logsId :
    Script.sampleDates logsId "fitness_r" "sleep_h" = [4, 5, 6] := by
  decide

theorem script_sample_logsId :
    Script.sample logsId "fitness_r" "sleep_h" = [(2, 2), (3, 3), (4, 4)] := by
  have cf4 : pivotCell logsId 4 "fitness_r" = some 2 := by
    have e : cellValues logsId 4 "fitness_r" = [2] := by decide
    rw [pivotCell, e]
    norm_num
  have cf5 : pivotCell logsId 5 "fitness_r" = some 3 := by
    have e : cellValues logsId 5 "fitness_r" = [3] := by decide
    rw [pivotCell, e]
    norm_num
  have cf6 : pivotCell logsId 6 "fitness_r" = some 4 := by
    have e : cellValues logsId 6 "fitness_r" = [4] := by decide
    rw [pivotCell, e]
    norm_num
  have cs4 : pivotCell logsId 4 "sleep_h" = some 2 := by
    have e : cellValues logsId 4 "sleep_h" = [2] := by decide
    rw [pivotCell, e]
    norm_num
  have cs5 : pivotCell logsId 5 "sleep_h" = some 3 := by
    have e : cellValues logsId 5 "sleep_h" = [3] := by decide
    rw [pivotCell, e]
    norm_num
  have cs6 : pivotCell logsId 6 "sleep_h" = some 4 := by
    have e : cellValues logsId 6 "sleep_h" = [4] := by decide
    rw [pivotCell, e]
    norm_num
  rw [Script.sample, script_sampleDates_logsId]
  simp [cf4, cf5, cf6, cs4, cs5, cs6]

theorem pearModel_perfect3 :
    pearModel [((2 : ℚ), (2 : ℚ)), (3, 3), (4, 4)] = some (1, 0) := by
  have hx : varNumX [((2 : ℚ), (2 : ℚ)), (3, 3), (4, 4)] = 6 := by
    norm_num [varNumX]
  have hy : varNumY [((2 : ℚ), (2 : ℚ)), (3, 3), (4, 4)] = 6 := by
    norm_num [varNumY]
  have hcv : covNum [((2 : ℚ), (2 : ℚ)), (3, 3), (4, 4)] = 6 := by
    norm_num [covNum]
  have hns : natSqrt (Int.toNat 36) = 6 := by decide
  have hn1 : natSqrt 1 = 1 := by decide
  rw [pearModel, if_neg (by rw [hx, hy]; norm_num)]
  have hr : corrOf [((2 : ℚ), (2 : ℚ)), (3, 3), (4, 4)] = 1 := by
    rw [corrOf, hcv, hx, hy]
    norm_num [ratSqrt]
    rw [hns, hn1]
    norm_num
  have hp : pOf [((2 : ℚ), (2 : ℚ)), (3, 3), (4, 4)] = 0 := by
    rw [pOf, if_pos (by rw [hcv, hx, hy]; norm_num)]
  rw [hr, hp]

theorem script_pair_logsId :
    Script.calculate_pair pearModel logsId "fitness_r" "sleep_h"
      = some ⟨"fitness_r", "sleep_h", 1, 0, 3⟩ := by
  rw [Script.calculate_pair,
    if_neg (by rw [script_sampleDates_logsId]; norm_num),
    script_sample_logsId, pearModel_perfect3, script_sampleDates_logsId]
  rfl

theorem script_records_logsId :
    Script.calculate_correlations pearModel logsId
      = [⟨"fitness_r", "sleep_h", 1, 0, 3⟩] := by
  have hcols : pivotCols logsId = ["fitness_r", "sleep_h"] := by decide
  rw [Script.calculate_correlations, hcols]
  simp [pairsOf, List.filterMap_cons, script_pair_logsId]

theorem script_select_logsId :
    Script.select_top_correlations [⟨"fitness_r", "sleep_h", 1, 0, 3⟩] 3
      = ([⟨"fitness_r", "sleep_h", 1, 0, 3⟩], []) := by
  norm_num [Script.select_top_correlations, List.insertionSort,
    List.orderedInsert]

theorem script_run_logsId :
    Script.run_correlation_analysis pearModel 1 logsId []
      = Except.ok [⟨1,
          Script.generate_insight_text ⟨"fitness_r", "sleep_h", 1, 0, 3⟩, 1⟩] := by
  rw [Script.run_correlation_analysis, if_neg (by decide), script_records_logsId,
    script_select_logsId]
  rfl

/-! ## Idempotence lemmas for the sync functions -/

theorem filter_ne_save_service (u : ℕ) (cs : List Service.SRec) (s : Store) :
    (Service.save_correlation_insights u cs s).filter (fun i => i.user != u)
      = s.filter (fun i => i.user != u) := by
  rw [Service.save_correlation_insights, List.filter_append]
  have h2 : (cs.map (fun c => (⟨u, c.description, c.corr⟩ : Insight))).filter
      (fun i => i.user != u) = [] := by
    rw [List.filter_eq_nil_iff]
    intro i hi
    rcases List.mem_map.1 hi with ⟨c, _, hc⟩
    simp [← hc]
  rw [h2, List.filter_filter]
  simp

theorem filter_ne_save_script (u : ℕ) (pos neg : List CorrRec) (s : Store) :
    (Script.save_insights_to_db u pos neg s).filter (fun i => i.user != u)
      = s.filter (fun i => i.user != u) := by
  rw [Script.save_insights_to_db, List.filter_append, List.filter_append]
  have h2 : ∀ cs : List CorrRec, (cs.map (fun c =>
      (⟨u, Script.generate_insight_text c, c.corr⟩ : Insight))).filter
        (fun i => i.user != u) = [] := by
    intro cs
    rw [List.filter_eq_nil_iff]
    intro i hi
    rcases List.mem_map.1 hi with ⟨c, _, hc⟩
    simp [← hc]
  rw [h2, h2, List.filter_filter]
  simp

theorem save_service_idem (u : ℕ) (cs : List Service.SRec) (s : Store) :
    Service.save_correlation_insights u cs
        (Service.save_correlation_insights u cs s)
      = Service.save_correlation_insights u cs s := by
  conv_lhs => rw [Service.save_correlation_insights]
  rw [filter_ne_save_service, Service.save_correlation_insights]

theorem save_script_idem (u : ℕ) (pos neg : List CorrRec) (s : Store) :
    Script.save_insights_to_db u pos neg
        (Script.save_insights_to_db u pos neg s)
      = Script.save_insights_to_db u pos neg s := by
  conv_lhs => rw [Script.save_insights_to_db]
  rw [filter_ne_save_script, Script.save_insights_to_db]

/-! ## C4 -/

/-- C4 counterexample: running the worker entry point twice on unchanged log
data doubles the stored insight set (the worker inserts without deleting), so
the two runs do not produce the same final stored set. -/
theorem C4_counterexample :
    (Worker.run_once (fun _ => Except.ok logsId) 6 [1] []).store.length = 1
      ∧ (Worker.run_once (fun _ => Except.ok logsId) 6 [1]
          (Worker.run_once (fun _ => Except.ok logsId) 6 [1] []).store).store.length
        = 2
      ∧ (Worker.run_once (fun _ => Except.ok logsId) 6 [1]
            (Worker.run_once (fun _ => Except.ok logsId) 6 [1] []).store).store
        ≠ (Worker.run_once (fun _ => Except.ok logsId) 6 [1] []).store := by
  have h1 : (Worker.run_once (fun _ => Except.ok logsId) 6 [1] []).store
      = [⟨1, Worker.description "sleep" "fitness" 1, 1⟩] := by
    simp only [Worker.run_once, List.nil_append, worker_insights_logsId]
  have h2 : (Worker.run_once (fun _ => Except.ok logsId) 6 [1]
      [(⟨1, Worker.description "sleep" "fitness" 1, 1⟩ : Insight)]).store
      = [⟨1, Worker.description "sleep" "fitness" 1, 1⟩,
         ⟨1, Worker.description "sleep" "fitness" 1, 1⟩] := by
    simp only [Worker.run_once, worker_insights_logsId]
    rfl
  refine ⟨?_, ?_, ?_⟩
  · rw [h1]
    rfl
  · rw [h1, h2]
    rfl
  · rw [h1, h2]
    intro h
    have hl := congrArg List.length h
    simp at hl

/-- C4 amended: the script entry point and the service per-user run are
idempotent (their sync deletes before inserting), but the worker entry point
is not — rerunning it duplicates insights, as the counterexample shows. -/
theorem C4_amended (pear : Pear) (fetch : ℕ → Except Unit (List LogPoint))
    (u : ℕ) (logs : List LogPoint) (s s2 s3 : Store)
    (h : Script.run_correlation_analysis pear u logs s = Except.ok s2)
    (h2 : Service.run_user pear fetch u s = Except.ok s3) :
    Script.run_correlation_analysis pear u logs s2 = Except.ok s2
      ∧ Service.run_user pear fetch u s3 = Except.ok s3 := by
  constructor
  · rw [Script.run_correlation_analysis] at h ⊢
    by_cases he : logs.isEmpty
    · rw [if_pos he] at h
      cases h
    · rw [if_neg he] at h ⊢
      injection h with h3
      rw [← h3, save_script_idem, h3]
  · rw [Service.run_user] at h2 ⊢
    cases hf : fetch u with
    | error e =>
        rw [hf] at h2
        exact absurd h2 (by simp)
    | ok lg =>
        rw [hf] at h2
        dsimp only at h2 ⊢
        injection h2 with h3
        rw [← h3, save_service_idem, h3]

/-- Witness for C4 amended: concrete second runs of the script (on `logsId`)
and of the service (on `logsV5`) reproduce the first run's store. -/
theorem C4_amended_witness :
    Script.run_correlation_analysis pearModel 1 logsId
        [⟨1, Script.generate_insight_text ⟨"fitness_r", "sleep_h", 1, 0, 3⟩, 1⟩]
      = Except.ok
        [⟨1, Script.generate_insight_text ⟨"fitness_r", "sleep_h", 1, 0, 3⟩, 1⟩]
      ∧ Service.run_user pearModel (fun _ => Except.ok logsV5) 1
          (Service.save_correlation_insights 1 [recV5] [])
        = Except.ok (Service.save_correlation_insights 1 [recV5] []) := by
  have hserv : Service.run_user pearModel (fun _ => Except.ok logsV5) 1 []
      = Except.ok (Service.save_correlation_insights 1 [recV5] []) := by
    simp only [Service.run_user, service_records_logsV5]
  have h := C4_amended pearModel (fun _ => Except.ok logsV5) 1 logsId []
    [⟨1, Script.generate_insight_text ⟨"fitness_r", "sleep_h", 1, 0, 3⟩, 1⟩]
    (Service.save_correlation_insights 1 [recV5] []) script_run_logsId hserv
  exact h

/-! ## C5 -/

/-- C5: each correlator skips a pair (emits nothing) when its overlap count
is strictly below its configured minimum — 3 in the script, 5 in the service
(whose post-fill row count is its overlap notion), 3 in the 7-day worker —
and still evaluates the pair when the count equals the minimum exactly: at
the boundary the output is exactly what the correlation computation and the
downstream filters yield. -/
theorem C5_min_overlap_boundary (pear : Pear) (logs : List LogPoint)
    (k1 k2 : String) (pairs : List (ℚ × ℚ)) :
    ((Script.sampleDates logs k1 k2).length < 3 →
        Script.calculate_pair pear logs k1 k2 = none)
      ∧ ((Script.sampleDates logs k1 k2).length = 3 →
        Script.calculate_pair pear logs k1 k2
          = (pear (Script.sample logs k1 k2)).map
              (fun rp => ⟨k1, k2, rp.1, rp.2, 3⟩))
      ∧ ((pivotDates logs).length < 5 →
        Service.compute_pair pear logs k1 k2 = none)
      ∧ ((pivotDates logs).length = 5 →
        Service.compute_pair pear logs k1 k2
          = match pear (Service.sample logs k1 k2) with
            | none => none
            | some rp =>
                if rp.2 < 1 / 20 ∧ 3 / 10 < |rp.1| then
                  some ⟨k1, k2, rp.1, rp.2, 5,
                    Service.generate_correlation_description k1 k2 rp.1⟩
                else none)
      ∧ (pairs.length < 3 → Worker.compute_correlations pairs = none)
      ∧ (pairs.length = 3 →
        Worker.compute_correlations pairs
          = if varNumX pairs = 0 ∨ varNumY pairs = 0 then none
            else some (corrOf pairs)) := by
  refine ⟨?_, ?_, ?_, ?_, ?_, ?_⟩
  · intro h
    rw [Script.calculate_pair, if_pos h]
  · intro h
    rw [Script.calculate_pair, if_neg (by omega), h]
  · intro h
    rw [Service.compute_pair, if_pos h]
  · intro h
    rw [Service.compute_pair, if_neg (by omega), h]
  · intro h
    rw [Worker.compute_correlations, if_pos h]
  · intro h
    rw [Worker.compute_correlations, if_neg (by omega)]

/-- Witness for C5: overlap 2 is skipped and overlap 3 evaluated in both the
script and the worker; 4 pivot rows are skipped and 5 evaluated in the
service. -/
theorem C5_min_overlap_boundary_witness :
    ((Script.sampleDates logsS2 "fitness_r" "sleep_h").length = 2
        ∧ Script.calculate_pair pearModel logsS2 "fitness_r" "sleep_h" = none)
      ∧ ((Script.sampleDates logsId "fitness_r" "sleep_h").length = 3
        ∧ Script.calculate_pair pearModel logsId "fitness_r" "sleep_h"
            = some ⟨"fitness_r", "sleep_h", 1, 0, 3⟩)
      ∧ ((pivotDates logsV4).length = 4
        ∧ Service.compute_pair pearModel logsV4 "fitness_r" "sleep_h" = none)
      ∧ ((pivotDates logsV5).length = 5
        ∧ Service.compute_pair pearModel logsV5 "fitness_r" "sleep_h"
            = some recV5)
      ∧ Worker.compute_correlations [((2 : ℚ), (2 : ℚ)), (3, 3)] = none
      ∧ Worker.compute_correlations [((2 : ℚ), (2 : ℚ)), (3, 3), (4, 4)]
          = some 1 := by
  have hS2 : (Script.sampleDates logsS2 "fitness_r" "sleep_h").length = 2 := by
    decide
  have hId : (Script.sampleDates logsId "fitness_r" "sleep_h").length = 3 := by
    decide
  have hV4 : (pivotDates logsV4).length = 4 := by decide
  have hb2 := (C5_min_overlap_boundary pearModel logsS2 "fitness_r" "sleep_h"
    []).1 (by omega)
  have hb3 := (C5_min_overlap_boundary pearModel logsId "fitness_r" "sleep_h"
    []).2.1 hId
  have hb4 := (C5_min_overlap_boundary pearModel logsV4 "fitness_r" "sleep_h"
    []).2.2.1 (by omega)
  have hbw := (C5_min_overlap_boundary pearModel logsV4 "fitness_r" "sleep_h"
    [((2 : ℚ), (2 : ℚ)), (3, 3)]).2.2.2.2.1 (by norm_num)
  refine ⟨⟨hS2, hb2⟩, ⟨hId, ?_⟩, ⟨hV4, hb4⟩,
    ⟨by decide, service_pair_logsV5⟩, hbw, worker_compute_perfect3⟩
  rw [hb3, script_sample_logsId, pearModel_perfect3]
  rfl

theorem script_sampleDates_logsConst :
    Script.sampleDates logsConst "fitness_r" "sleep_h" = [4, 5, 6] := by
  decide

theorem script_sample_logsConst :
    Script.sample logsConst "fitness_r" "sleep_h"
      = [(2, 3), (3, 3), (4, 3)] := by
  have cf4 : pivotCell logsConst 4 "fitness_r" = some 2 := by
    have e : cellValues logsConst 4 "fitness_r" = [2] := by decide
    rw [pivotCell, e]
    norm_num
  have cs4 : pivotCell logsConst 4 "sleep_h" = some 3 := by
    have e : cellValues logsConst 4 "sleep_h" = [3] := by decide
    rw [pivotCell, e]
    norm_num
  have cf5 : pivotCell logsConst 5 "fitness_r" = some 3 := by
    have e : cellValues logsConst 5 "fitness_r" = [3] := by decide
    rw [pivotCell, e]
    norm_num
  have cs5 : pivotCell logsConst 5 "sleep_h" = some 3 := by
    have e : cellValues logsConst 5 "sleep_h" = [3] := by decide
    rw [pivotCell, e]
    norm_num
  have cf6 : pivotCell logsConst 6 "fitness_r" = some 4 := by
    have e : cellValues logsConst 6 "fitness_r" = [4] := by decide
    rw [pivotCell, e]
    norm_num
  have cs6 : pivotCell logsConst 6 "sleep_h" = some 3 := by
    have e : cellValues logsConst 6 "sleep_h" = [3] := by decide
    rw [pivotCell, e]
    norm_num
  rw [Script.sample, script_sampleDates_logsConst]
  simp [cf4, cf5, cf6, cs4, cs5, cs6]

theorem service_sample_logsConst :
    Service.sample logsConst "fitness_r" "sleep_h"
      = [(2, 3), (3, 3), (4, 3)] := by
  have hdates : pivotDates logsConst = [4, 5, 6] := by decide
  have cf4 : pivotCell logsConst 4 "fitness_r" = some 2 := by
    have e : cellValues logsConst 4 "fitness_r" = [2] := by decide
    rw [pivotCell, e]
    norm_num
  have cs4 : pivotCell logsConst 4 "sleep_h" = some 3 := by
    have e : cellValues logsConst 4 "sleep_h" = [3] := by decide
    rw [pivotCell, e]
    norm_num
  have cf5 : pivotCell logsConst 5 "fitness_r" = some 3 := by
    have e : cellValues logsConst 5 "fitness_r" = [3] := by decide
    rw [pivotCell, e]
    norm_num
  have cs5 : pivotCell logsConst 5 "sleep_h" = some 3 := by
    have e : cellValues logsConst 5 "sleep_h" = [3] := by decide
    rw [pivotCell, e]
    norm_num
  have cf6 : pivotCell logsConst 6 "fitness_r" = some 4 := by
    have e : cellValues logsConst 6 "fitness_r" = [4] := by decide
    rw [pivotCell, e]
    norm_num
  have cs6 : pivotCell logsConst 6 "sleep_h" = some 3 := by
    have e : cellValues logsConst 6 "sleep_h" = [3] := by decide
    rw [pivotCell, e]
    norm_num
  have ff4 : Service.filledCell logsConst 4 "fitness_r" = 2 := by
    rw [Service.filledCell, hdates]
    simp [cf4, cf5, cf6]
  have fs4 : Service.filledCell logsConst 4 "sleep_h" = 3 := by
    rw [Service.filledCell, hdates]
    simp [cs4, cs5, cs6]
  have ff5 : Service.filledCell logsConst 5 "fitness_r" = 3 := by
    rw [Service.filledCell, hdates]
    simp [cf4, cf5, cf6]
  have fs5 : Service.filledCell logsConst 5 "sleep_h" = 3 := by
    rw [Service.filledCell, hdates]
    simp [cs4, cs5, cs6]
  have ff6 : Service.filledCell logsConst 6 "fitness_r" = 4 := by
    rw [Service.filledCell, hdates]
    simp [cf4, cf5, cf6]
  have fs6 : Service.filledCell logsConst 6 "sleep_h" = 3 := by
    rw [Service.filledCell, hdates]
    simp [cs4, cs5, cs6]
  rw [Service.sample, hdates]
  simp [ff4, ff5, ff6, fs4, fs5, fs6]

/-! ## C6 -/

/-- `pearModel` respects the degenerate-variance contract. -/
theorem pearModel_zero (t : List (ℚ × ℚ))
    (h : varNumX t = 0 ∨ varNumY t = 0) : pearModel t = none := by
  rw [pearModel, if_pos h]

/-- C6: when either series of a pair has zero variance over the sample
actually fed to the library (so the library yields NaN / raises, i.e. the
model returns `none`), no record is emitted by any variant — the worker
checks the standard deviations itself — and every record any variant does
emit carries values coming out of a successful (finite) library result. -/
theorem C6_zero_variance_skip (pear : Pear)
    (hpear : ∀ t, varNumX t = 0 ∨ varNumY t = 0 → pear t = none)
    (logs logs2 : List LogPoint) (k1 k2 : String) (pairs : List (ℚ × ℚ))
    (rec : CorrRec)
    (hscr : varNumX (Script.sample logs k1 k2) = 0
        ∨ varNumY (Script.sample logs k1 k2) = 0)
    (hsrv : varNumX (Service.sample logs k1 k2) = 0
        ∨ varNumY (Service.sample logs k1 k2) = 0)
    (hwrk : varNumX pairs = 0 ∨ varNumY pairs = 0)
    (hmem : rec ∈ Script.calculate_correlations pear logs2) :
    Script.calculate_pair pear logs k1 k2 = none
      ∧ Service.compute_pair pear logs k1 k2 = none
      ∧ Worker.compute_correlations pairs = none
      ∧ ∃ kk : String × String,
          pear (Script.sample logs2 kk.1 kk.2) = some (rec.corr, rec.p) := by
  refine ⟨?_, ?_, ?_, ?_⟩
  · rw [Script.calculate_pair]
    split
    · rfl
    · rw [hpear _ hscr]
      rfl
  · rw [Service.compute_pair]
    split
    · rfl
    · rw [hpear _ hsrv]
  · rw [Worker.compute_correlations]
    by_cases h3 : pairs.length < 3
    · rw [if_pos h3]
    · rw [if_neg h3, if_pos hwrk]
  · rcases List.mem_filterMap.1 hmem with ⟨kk, _, hp⟩
    rw [Script.calculate_pair] at hp
    split at hp
    · exact absurd hp (by simp)
    · cases e : pear (Script.sample logs2 kk.1 kk.2) with
      | none =>
          rw [e] at hp
          exact absurd hp (by simp)
      | some rp =>
          rw [e] at hp
          have h2 := Option.some_injective _ hp
          exact ⟨kk, by rw [e, ← h2]⟩

/-- Witness for C6: on `logsConst` (one constant metric) every variant emits
nothing, and the record the script emits from `logsId` indeed comes from a
finite library result. -/
theorem C6_zero_variance_skip_witness :
    Script.calculate_pair pearModel logsConst "fitness_r" "sleep_h" = none
      ∧ Service.compute_pair pearModel logsConst "fitness_r" "sleep_h" = none
      ∧ Worker.compute_correlations [((2 : ℚ), (3 : ℚ)), (3, 3), (4, 3)] = none
      ∧ pearModel (Script.sample logsId "fitness_r" "sleep_h")
          = some ((⟨"fitness_r", "sleep_h", 1, 0, 3⟩ : CorrRec).corr,
              (⟨"fitness_r", "sleep_h", 1, 0, 3⟩ : CorrRec).p) := by
  have hscr : varNumX (Script.sample logsConst "fitness_r" "sleep_h") = 0
      ∨ varNumY (Script.sample logsConst "fitness_r" "sleep_h") = 0 := by
    right
    rw [script_sample_logsConst]
    norm_num [varNumY]
  have hsrv : varNumX (Service.sample logsConst "fitness_r" "sleep_h") = 0
      ∨ varNumY (Service.sample logsConst "fitness_r" "sleep_h") = 0 := by
    right
    rw [service_sample_logsConst]
    norm_num [varNumY]
  have hwrk : varNumX [((2 : ℚ), (3 : ℚ)), (3, 3), (4, 3)] = 0
      ∨ varNumY [((2 : ℚ), (3 : ℚ)), (3, 3), (4, 3)] = 0 := by
    right
    norm_num [varNumY]
  have hmem : (⟨"fitness_r", "sleep_h", 1, 0, 3⟩ : CorrRec)
      ∈ Script.calculate_correlations pearModel logsId := by
    rw [script_records_logsId]
    exact List.mem_singleton.2 rfl
  have h := C6_zero_variance_skip pearModel pearModel_zero logsConst logsId
    "fitness_r" "sleep_h" [((2 : ℚ), (3 : ℚ)), (3, 3), (4, 3)]
    ⟨"fitness_r", "sleep_h", 1, 0, 3⟩ hscr hsrv hwrk hmem
  refine ⟨h.1, h.2.1, h.2.2.1, ?_⟩
  rw [script_sample_logsId, pearModel_perfect3]

/-! ## C7 -/

/-- C7 counterexample: two surviving records with equal `|coefficient|` keep
their input order even though the first has the larger p-value (the source
sorts only by `abs(correlation)` — Python's stable sort applies no p-value or
lexical tie-break), and one worker run stores six positive insights, more
than `top_n = 3`. -/
theorem C7_counterexample :
    (Script.select_top_correlations [recTieA, recTieB] 3).1
        = [recTieA, recTieB]
      ∧ recTieB.p < recTieA.p
      ∧ |recTieA.corr| = |recTieB.corr|
      ∧ (Worker.userInsights 6 1 logsFour).map (·.score)
          = [1, 1, 1, 1, 1, 1] := by
  have hd : Worker.domains 6 logsFour = ["a", "b", "c", "d"] := by
    simp [Worker.domains, Worker.windowLogs, logsFour, dedupKeepFirst]
  have hab : Worker.pairsFor 6 logsFour "a" "b" = [(2, 2), (3, 3), (4, 4)] := by
    simp [Worker.pairsFor, Worker.valAt, Worker.windowLogs, logsFour,
      List.range_succ]
  have hac : Worker.pairsFor 6 logsFour "a" "c" = [(2, 2), (3, 3), (4, 4)] := by
    simp [Worker.pairsFor, Worker.valAt, Worker.windowLogs, logsFour,
      List.range_succ]
  have had : Worker.pairsFor 6 logsFour "a" "d" = [(2, 2), (3, 3), (4, 4)] := by
    simp [Worker.pairsFor, Worker.valAt, Worker.windowLogs, logsFour,
      List.range_succ]
  have hbc : Worker.pairsFor 6 logsFour "b" "c" = [(2, 2), (3, 3), (4, 4)] := by
    simp [Worker.pairsFor, Worker.valAt, Worker.windowLogs, logsFour,
      List.range_succ]
  have hbd : Worker.pairsFor 6 logsFour "b" "d" = [(2, 2), (3, 3), (4, 4)] := by
    simp [Worker.pairsFor, Worker.valAt, Worker.windowLogs, logsFour,
      List.range_succ]
  have hcd : Worker.pairsFor 6 logsFour "c" "d" = [(2, 2), (3, 3), (4, 4)] := by
    simp [Worker.pairsFor, Worker.valAt, Worker.windowLogs, logsFour,
      List.range_succ]
  refine ⟨?_, by norm_num [recTieA, recTieB], by norm_num [recTieA, recTieB], ?_⟩
  · norm_num [Script.select_top_correlations, List.insertionSort,
      List.orderedInsert, Script.byAbsDesc, recTieA, recTieB]
  · rw [Worker.userInsights, hd]
    simp [pairsOf, List.filterMap_cons, hab, hac, had, hbc, hbd, hcd,
      worker_compute_perfect3]

/-- C7 amended: the script selector keeps at most `topN` records per
polarity, each kept group is sorted descending by `|coefficient|`, and every
kept record is a surviving input record with `p_value < 0.05` and the
polarity of its group — but ties keep the enumeration order (no p-value or
lexical tie-break), and no per-polarity cap exists in the service or worker
variants. -/
theorem C7_amended (cs : List CorrRec) (topN : ℕ) (c d : CorrRec)
    (hpos : c ∈ (Script.select_top_correlations cs topN).1)
    (hneg : d ∈ (Script.select_top_correlations cs topN).2) :
    (Script.select_top_correlations cs topN).1.length ≤ topN
      ∧ (Script.select_top_correlations cs topN).2.length ≤ topN
      ∧ List.Sorted Script.byAbsDesc (Script.select_top_correlations cs topN).1
      ∧ List.Sorted Script.byAbsDesc (Script.select_top_correlations cs topN).2
      ∧ (c ∈ cs ∧ c.p < 1 / 20 ∧ 0 < c.corr)
      ∧ (d ∈ cs ∧ d.p < 1 / 20 ∧ d.corr < 0) := by
  refine ⟨List.length_take_le .., List.length_take_le .., ?_, ?_, ?_, ?_⟩
  · exact List.Pairwise.sublist (List.take_sublist ..)
      (List.sorted_insertionSort Script.byAbsDesc _)
  · exact List.Pairwise.sublist (List.take_sublist ..)
      (List.sorted_insertionSort Script.byAbsDesc _)
  · have h2 := List.mem_of_mem_take hpos
    rw [List.mem_insertionSort] at h2
    have h3 := List.mem_filter.1 h2
    have h4 := List.mem_filter.1 h3.1
    refine ⟨h4.1, by simpa using h4.2, by simpa using h3.2⟩
  · have h2 := List.mem_of_mem_take hneg
    rw [List.mem_insertionSort] at h2
    have h3 := List.mem_filter.1 h2
    have h4 := List.mem_filter.1 h3.1
    refine ⟨h4.1, by simpa using h4.2, by simpa using h3.2⟩

/-- Witness for C7 amended at a two-record input with one survivor per
polarity. -/
theorem C7_amended_witness :
    (recTieA ∈ (Script.select_top_correlations [recTieA, recNeg] 3).1
        ∧ recNeg ∈ (Script.select_top_correlations [recTieA, recNeg] 3).2)
      ∧ (Script.select_top_correlations [recTieA, recNeg] 3).1.length ≤ 3
      ∧ (recTieA ∈ [recTieA, recNeg] ∧ recTieA.p < 1 / 20 ∧ 0 < recTieA.corr)
      ∧ (recNeg ∈ [recTieA, recNeg] ∧ recNeg.p < 1 / 20 ∧ recNeg.corr < 0) := by
  have hsel : Script.select_top_correlations [recTieA, recNeg] 3
      = ([recTieA], [recNeg]) := by
    norm_num [Script.select_top_correlations, List.insertionSort,
      List.orderedInsert, recTieA, recNeg]
  have hpos : recTieA ∈ (Script.select_top_correlations [recTieA, recNeg] 3).1 := by
    rw [hsel]
    exact List.mem_singleton.2 rfl
  have hneg : recNeg ∈ (Script.select_top_correlations [recTieA, recNeg] 3).2 := by
    rw [hsel]
    exact List.mem_singleton.2 rfl
  have h := C7_amended [recTieA, recNeg] 3 recTieA recNeg hpos hneg
  exact ⟨⟨hpos, hneg⟩, h.1, h.2.2.2.2.1, h.2.2.2.2.2⟩

/-! ## C8 -/

theorem run_weekly_cons (pear : Pear)
    (fetch : ℕ → Except Unit (List LogPoint)) (v : ℕ) (rest : List ℕ)
    (s : Store) :
    Service.run_weekly_analysis pear fetch (v :: rest) s
      = Service.run_weekly_analysis pear fetch rest
          (match Service.run_user pear fetch v s with
           | Except.ok st2 => st2
           | Except.error _ => s) := rfl

theorem run_weekly_not_mem (pear : Pear)
    (fetch : ℕ → Except Unit (List LogPoint)) (users : List ℕ) (u : ℕ)
    (s : Store) (hu : u ∉ users) :
    insightsFor u (Service.run_weekly_analysis pear fetch users s)
      = insightsFor u s := by
  induction users generalizing s with
  | nil => rfl
  | cons v rest ih =>
      have hvu : u ≠ v := fun h => hu (h ▸ List.mem_cons_self v rest)
      have hrest : u ∉ rest := fun h => hu (List.mem_cons_of_mem v h)
      rw [run_weekly_cons, ih _ hrest]
      cases hf : Service.run_user pear fetch v s with
      | error e => rfl
      | ok st2 =>
          rw [Service.run_user] at hf
          cases hfv : fetch v with
          | error e =>
              rw [hfv] at hf
              cases hf
          | ok lg =>
              rw [hfv] at hf
              dsimp only at hf
              injection hf with h2
              rw [← h2]
              exact save_service_other hvu _ s

/-- C8 counterexample: the worker's all-users batch has no per-user
exception boundary — with users `[1, 2]` and a failing read for user 1 the
run aborts with nothing stored, although running user 2 alone stores an
insight; the claim that every remaining user is still processed fails for
this batch loop. -/
theorem C8_counterexample :
    Worker.run_once fetchBad 6 [1, 2] [] = ⟨[], true⟩
      ∧ (Worker.run_once fetchBad 6 [2] []).store.length = 1 := by
  constructor
  · rfl
  · have hp : Worker.pairsFor 6 logsV5 "sleep" "fitness"
        = [(2, 2), (2, 2), (3, 3), (3, 3), (4, 4)] := by
      simp [Worker.pairsFor, Worker.valAt, Worker.windowLogs, logsV5,
        List.range_succ]
    have hc : Worker.compute_correlations
        [((2 : ℚ), (2 : ℚ)), (2, 2), (3, 3), (3, 3), (4, 4)] = some 1 := by
      have hx : varNumX [((2 : ℚ), (2 : ℚ)), (2, 2), (3, 3), (3, 3), (4, 4)]
          = 14 := by norm_num [varNumX]
      have hy : varNumY [((2 : ℚ), (2 : ℚ)), (2, 2), (3, 3), (3, 3), (4, 4)]
          = 14 := by norm_num [varNumY]
      have hcv : covNum [((2 : ℚ), (2 : ℚ)), (2, 2), (3, 3), (3, 3), (4, 4)]
          = 14 := by norm_num [covNum]
      have hns : natSqrt (Int.toNat 196) = 14 := by decide
      have hn1 : natSqrt 1 = 1 := by decide
      rw [Worker.compute_correlations, if_neg (by norm_num),
        if_neg (by rw [hx, hy]; norm_num), corrOf, hcv, hx, hy]
      norm_num [ratSqrt]
      rw [hns, hn1]
      norm_num
    have hd : Worker.domains 6 logsV5 = ["sleep", "fitness"] := by
      simp [Worker.domains, Worker.windowLogs, logsV5, dedupKeepFirst]
    have hrun : (Worker.run_once fetchBad 6 [2] []).store
        = Worker.userInsights 6 2 logsV5 := by
      simp only [Worker.run_once, fetchBad]
      rfl
    rw [hrun, Worker.userInsights, hd]
    simp [pairsOf, List.filterMap_cons, hp, hc]

/-- C8 amended: the service batch (`run_weekly_analysis`) does have the
per-user boundary: whatever happens to the other users (including failing
reads), every user whose read succeeds ends the batch with exactly the
insights computed from their own rows.  The worker batch lacks the boundary,
as the counterexample shows; a zero-log user raises nothing in either
variant. -/
theorem C8_amended (pear : Pear) (fetch : ℕ → Except Unit (List LogPoint))
    (users : List ℕ) (u : ℕ) (logs : List LogPoint) (s : Store)
    (hnd : users.Nodup) (hu : u ∈ users) (hf : fetch u = Except.ok logs) :
    insightsFor u (Service.run_weekly_analysis pear fetch users s)
      = (Service.compute_correlations pear logs).map
          (fun c => ⟨u, c.description, c.corr⟩) := by
  induction users generalizing s with
  | nil => cases hu
  | cons v rest ih =>
      rw [run_weekly_cons]
      rcases List.mem_cons.1 hu with h | h
      · subst h
        have hnotin : u ∉ rest := (List.nodup_cons.1 hnd).1
        have hstep : (match Service.run_user pear fetch u s with
            | Except.ok st2 => st2
            | Except.error _ => s)
            = Service.save_correlation_insights u
                (Service.compute_correlations pear logs) s := by
          simp only [Service.run_user, hf]
        rw [hstep, run_weekly_not_mem _ _ _ _ _ hnotin, save_service_self]
      · exact ih _ (List.nodup_cons.1 hnd).2 h

/-- Witness for C8 amended: with a failing read for user 1, user 2 still
receives its insight set; in the three-user scenario where user 3 has zero
log points, user 3 ends with zero insights and user 2 still receives its
insights. -/
theorem C8_amended_witness :
    insightsFor 2 (Service.run_weekly_analysis pearModel fetchBad [1, 2] [])
        = [⟨2, recV5.description, 1⟩]
      ∧ insightsFor 3
          (Service.run_weekly_analysis pearModel fetchScenario [2, 3, 4] [])
        = []
      ∧ insightsFor 2
          (Service.run_weekly_analysis pearModel fetchScenario [2, 3, 4] [])
        = [⟨2, recV5.description, 1⟩] := by
  have h1 := C8_amended pearModel fetchBad [1, 2] 2 logsV5 [] (by decide)
    (by simp) rfl
  have h2 := C8_amended pearModel fetchScenario [2, 3, 4] 3 [] [] (by decide)
    (by simp) rfl
  have h3 := C8_amended pearModel fetchScenario [2, 3, 4] 2 logsV5 [] (by decide)
    (by simp) rfl
  rw [service_records_logsV5] at h1 h3
  refine ⟨?_, ?_, ?_⟩
  · rw [h1]
    simp [recV5]
  · rw [h2]
    rfl
  · rw [h3]
    simp [recV5]

/-! ## C3 -/

theorem service_sample_logsFF :
    Service.sample logsFF "fitness_r" "sleep_h"
      = [(2, 7), (3, 7), (4, 7), (5, 7), (6, 7)] := by
  have hdates : pivotDates logsFF = [1, 2, 3, 4, 5] := by decide
  have cf1 : pivotCell logsFF 1 "fitness_r" = some 2 := by
    have e : cellValues logsFF 1 "fitness_r" = [2] := by decide
    rw [pivotCell, e]
    norm_num
  have cf2 : pivotCell logsFF 2 "fitness_r" = some 3 := by
    have e : cellValues logsFF 2 "fitness_r" = [3] := by decide
    rw [pivotCell, e]
    norm_num
  have cf3 : pivotCell logsFF 3 "fitness_r" = some 4 := by
    have e : cellValues logsFF 3 "fitness_r" = [4] := by decide
    rw [pivotCell, e]
    norm_num
  have cf4 : pivotCell logsFF 4 "fitness_r" = some 5 := by
    have e : cellValues logsFF 4 "fitness_r" = [5] := by decide
    rw [pivotCell, e]
    norm_num
  have cf5 : pivotCell logsFF 5 "fitness_r" = some 6 := by
    have e : cellValues logsFF 5 "fitness_r" = [6] := by decide
    rw [pivotCell, e]
    norm_num
  have cs1 : pivotCell logsFF 1 "sleep_h" = some 7 := by
    have e : cellValues logsFF 1 "sleep_h" = [7] := by decide
    rw [pivotCell, e]
    norm_num
  have cs2 : pivotCell logsFF 2 "sleep_h" = none := by decide
  have cs3 : pivotCell logsFF 3 "sleep_h" = none := by decide
  have cs4 : pivotCell logsFF 4 "sleep_h" = none := by decide
  have cs5 : pivotCell logsFF 5 "sleep_h" = none := by decide
  have ff1 : Service.filledCell logsFF 1 "fitness_r" = 2 := by
    rw [Service.filledCell, hdates]
    simp [cf1, cf2, cf3, cf4, cf5]
  have fs1 : Service.filledCell logsFF 1 "sleep_h" = 7 := by
    rw [Service.filledCell, hdates]
    simp [cs1, cs2, cs3, cs4, cs5]
  have ff2 : Service.filledCell logsFF 2 "fitness_r" = 3 := by
    rw [Service.filledCell, hdates]
    simp [cf1, cf2, cf3, cf4, cf5]
  have fs2 : Service.filledCell logsFF 2 "sleep_h" = 7 := by
    rw [Service.filledCell, hdates]
    simp [cs1, cs2, cs3, cs4, cs5]
  have ff3 : Service.filledCell logsFF 3 "fitness_r" = 4 := by
    rw [Service.filledCell, hdates]
    simp [cf1, cf2, cf3, cf4, cf5]
  have fs3 : Service.filledCell logsFF 3 "sleep_h" = 7 := by
    rw [Service.filledCell, hdates]
    simp [cs1, cs2, cs3, cs4, cs5]
  have ff4 : Service.filledCell logsFF 4 "fitness_r" = 5 := by
    rw [Service.filledCell, hdates]
    simp [cf1, cf2, cf3, cf4, cf5]
  have fs4 : Service.filledCell logsFF 4 "sleep_h" = 7 := by
    rw [Service.filledCell, hdates]
    simp [cs1, cs2, cs3, cs4, cs5]
  have ff5 : Service.filledCell logsFF 5 "fitness_r" = 6 := by
    rw [Service.filledCell, hdates]
    simp [cf1, cf2, cf3, cf4, cf5]
  have fs5 : Service.filledCell logsFF 5 "sleep_h" = 7 := by
    rw [Service.filledCell, hdates]
    simp [cs1, cs2, cs3, cs4, cs5]
  rw [Service.sample, hdates]
  simp [ff1, ff2, ff3, ff4, ff5, fs1, fs2, fs3, fs4, fs5]

/-- C3 counterexample: in the service variant the pair sample is built from
the forward-filled, zero-filled pivot: with `sleep_h` observed only on day 1,
the sample the service correlates contains all five days, carrying the
fabricated value 7 on days 2 to 5 where `sleep_h` was never observed (the
script variant's sample for the same data is the single truly shared day). -/
theorem C3_counterexample :
    Service.sample logsFF "fitness_r" "sleep_h"
        = [(2, 7), (3, 7), (4, 7), (5, 7), (6, 7)]
      ∧ pivotCell logsFF 3 "sleep_h" = none
      ∧ Script.sampleDates logsFF "fitness_r" "sleep_h" = [1] := by
  refine ⟨service_sample_logsFF, by decide, by decide⟩

/-- C3 amended: the claim holds for the script variant — its per-pair sample
is exactly the dates where both metrics were actually observed, and a pivot
cell is filled exactly when an observation exists — but not for the service
variant, whose sample always spans every pivot row because the pivot is
forward-filled and then zero-filled before the correlation step (a date with
no prior observation contributes the synthetic value 0). -/
theorem C3_amended (logs : List LogPoint) (k1 k2 k : String) (d : ℤ) :
    (d ∈ Script.sampleDates logs k1 k2
        ↔ d ∈ pivotDates logs ∧ (pivotCell logs d k1).isSome
            ∧ (pivotCell logs d k2).isSome)
      ∧ ((pivotCell logs d k).isSome
          ↔ ∃ l ∈ logs, l.date = d ∧ metricKey l = k)
      ∧ (Service.sample logs k1 k2).length = (pivotDates logs).length
      ∧ ((∀ d2 ∈ pivotDates logs, d2 ≤ d → pivotCell logs d2 k = none) →
          Service.filledCell logs d k = 0) := by
  refine ⟨?_, ?_, ?_, ?_⟩
  · rw [Script.sampleDates, List.mem_filter]
    simp [and_assoc]
  · constructor
    · intro hs
      cases e : cellValues logs d k with
      | nil =>
          rw [pivotCell, e] at hs
          simp at hs
      | cons a as =>
          have ha : a ∈ cellValues logs d k := by
            rw [e]
            exact List.mem_cons_self a as
          rcases List.mem_map.1 ha with ⟨l, hl, _⟩
          have hp := List.mem_filter.1 hl
          refine ⟨l, hp.1, ?_, ?_⟩
          · have := hp.2
            simp at this
            exact this.1
          · have := hp.2
            simp at this
            exact this.2
    · rintro ⟨l, hl, hld, hlk⟩
      have hv : l.value ∈ cellValues logs d k := by
        rw [cellValues]
        exact List.mem_map_of_mem _ (List.mem_filter.2 ⟨hl, by simp [hld, hlk]⟩)
      cases e : cellValues logs d k with
      | nil => simp [e] at hv
      | cons a as => rw [pivotCell, e]; rfl
  · rw [Service.sample, List.length_map]
  · intro h
    rw [Service.filledCell]
    have he : (pivotDates logs).filter
        (fun d2 => decide (d2 ≤ d) && (pivotCell logs d2 k).isSome) = [] := by
      rw [List.filter_eq_nil_iff]
      intro d2 hd2
      by_cases hle : d2 ≤ d
      · simp [hle, h d2 hd2 hle]
      · simp [hle]
    rw [he]
    rfl

/-- Witness for C3 amended at `logsFF`: day 1 is a shared sample date, the
service sample spans every pivot row, and a date with no prior `sleep_h`
observation would be zero-filled. -/
theorem C3_amended_witness :
    (1 : ℤ) ∈ Script.sampleDates logsFF "fitness_r" "sleep_h"
      ∧ (Service.sample logsFF "fitness_r" "sleep_h").length
          = (pivotDates logsFF).length
      ∧ Service.filledCell logsFF 0 "sleep_h" = 0 := by
  have h1 := C3_amended logsFF "fitness_r" "sleep_h" "sleep_h" 1
  have h0 := C3_amended logsFF "fitness_r" "sleep_h" "sleep_h" 0
  refine ⟨h1.1.2 ⟨by decide, by decide, by decide⟩, h0.2.2.1, h0.2.2.2 ?_⟩
  decide

/-! ## C9 -/

theorem fmtFixed_50 : fmtFixed 1 (50 : ℚ) = "50.0" := by
  have habs : |(50 : ℚ)| = 50 := by norm_num
  have hsc : (50 : ℚ) * 10 ^ 1 = 500 := by norm_num
  have hfl : ⌊(500 : ℚ)⌋ = 500 := by norm_num
  have hre : roundHalfEven (500 : ℚ) = 500 := by
    rw [roundHalfEven, hfl]
    norm_num
  rw [fmtFixed, habs, hsc, hre, if_neg (by norm_num)]
  decide

/-- The full rendered sentence for the concrete negative cross-domain
record. -/
theorem render_recC9 :
    Script.generate_insight_text recC9
      = "Higher hours in sleep is associated with lower grade in climbing (50.0% inverse correlation) (highly significant)" := by
  have hsp1 : pySplitOnce "sleep_hours" = ("sleep", "hours") := by decide
  have hsp2 : pySplitOnce "climbing_grade" = ("climbing", "grade") := by decide
  have habs : |(-(1 / 2) : ℚ)| * 100 = 50 := by
    rw [abs_neg, abs_of_pos (by norm_num : (0 : ℚ) < 1 / 2)]
    norm_num
  have hne : ("sleep" : String) ≠ "climbing" := by decide
  simp only [Script.generate_insight_text, recC9, hsp1, hsp2]
  rw [if_pos (show (1 : ℚ) / 250 < 1 / 100 by norm_num),
    if_neg (show ¬ (0 : ℚ) < -(1 / 2) by norm_num), if_neg hne, habs,
    fmtFixed_50]
  decide

/-- C9 counterexample: for a negative cross-domain record the renderer says
"associated with lower …", not "associated with worse …" — the word "worse"
does not occur in the output at all. -/
theorem C9_counterexample :
    Script.generate_insight_text recC9
        = "Higher hours in sleep is associated with lower grade in climbing (50.0% inverse correlation) (highly significant)"
      ∧ containsSub (Script.generate_insight_text recC9) "worse" = false
      ∧ recC9.corr < 0
      ∧ (pySplitOnce recC9.metric1).1 ≠ (pySplitOnce recC9.metric2).1 := by
  refine ⟨render_recC9, ?_, by norm_num [recC9], by decide⟩
  rw [render_recC9]
  decide

/-- C9 amended: when the two domains differ the renderer produces
"Higher {metric A} in {domain A} is associated with better {metric B} in
{domain B} …" for a positive coefficient and "… associated with lower …"
(not "worse") for a negative one, followed by the percentage readout and the
significance qualifier. -/
theorem C9_amended (c : CorrRec)
    (hdiff : (pySplitOnce c.metric1).1 ≠ (pySplitOnce c.metric2).1) :
    (0 < c.corr → Script.generate_insight_text c
        = "Higher " ++ (pySplitOnce c.metric1).2 ++ " in "
            ++ (pySplitOnce c.metric1).1 ++ " is associated with better "
            ++ (pySplitOnce c.metric2).2 ++ " in " ++ (pySplitOnce c.metric2).1
            ++ " (" ++ fmtFixed 1 (|c.corr| * 100) ++ "% correlation)"
            ++ (if c.p < 1 / 100 then " (highly significant)"
                else if c.p < 1 / 20 then " (significant)" else ""))
      ∧ (c.corr < 0 → Script.generate_insight_text c
        = "Higher " ++ (pySplitOnce c.metric1).2 ++ " in "
            ++ (pySplitOnce c.metric1).1 ++ " is associated with lower "
            ++ (pySplitOnce c.metric2).2 ++ " in " ++ (pySplitOnce c.metric2).1
            ++ " (" ++ fmtFixed 1 (|c.corr| * 100) ++ "% inverse correlation)"
            ++ (if c.p < 1 / 100 then " (highly significant)"
                else if c.p < 1 / 20 then " (significant)" else "")) := by
  constructor
  · intro hpos
    simp only [Script.generate_insight_text]
    rw [if_pos hpos, if_neg hdiff]
    by_cases h1 : c.p < 1 / 100
    · rw [if_pos h1, if_pos h1]
    · by_cases h2 : c.p < 1 / 20
      · rw [if_neg h1, if_pos h2, if_neg h1, if_pos h2]
      · rw [if_neg h1, if_neg h2, if_neg h1, if_neg h2, String.append_empty]
  · intro hneg
    simp only [Script.generate_insight_text]
    rw [if_neg (lt_asymm hneg), if_neg hdiff]
    by_cases h1 : c.p < 1 / 100
    · rw [if_pos h1, if_pos h1]
    · by_cases h2 : c.p < 1 / 20
      · rw [if_neg h1, if_pos h2, if_neg h1, if_pos h2]
      · rw [if_neg h1, if_neg h2, if_neg h1, if_neg h2, String.append_empty]

/-- Witness for C9 amended: the positive twin of the counterexample record
renders with "better". -/
theorem C9_amended_witness :
    0 < recC9pos.corr
      ∧ Script.generate_insight_text recC9pos
        = "Higher hours in sleep is associated with better grade in climbing (50.0% correlation) (highly significant)" := by
  have hdiff : (pySplitOnce recC9pos.metric1).1
      ≠ (pySplitOnce recC9pos.metric2).1 := by decide
  have hpos : 0 < recC9pos.corr := by norm_num [recC9pos]
  have h := (C9_amended recC9pos hdiff).1 hpos
  refine ⟨hpos, ?_⟩
  rw [h]
  have hsp1 : pySplitOnce "sleep_hours" = ("sleep", "hours") := by decide
  have hsp2 : pySplitOnce "climbing_grade" = ("climbing", "grade") := by decide
  simp only [recC9pos, hsp1, hsp2]
  rw [(show |(1 / 2 : ℚ)| * 100 = 50 by
      rw [abs_of_pos (by norm_num : (0 : ℚ) < 1 / 2)]
      norm_num), fmtFixed_50,
    if_pos (show (1 : ℚ) / 250 < 1 / 100 by norm_num)]
  decide

end CrossCoach
